import Mathlib

/-!
Shallow embedding of `src/HyperAlloc/CriticalGC.c`, the Critical Pin Shim
of the heapothesys repository, together with a model of the host runtime
primitives it calls (`GetPrimitiveArrayCritical` and
`ReleasePrimitiveArrayCritical` of the JNI environment).

The shim itself is twelve lines of C:

  static jbyte* sink;
  acquire(env, klass, arr) { sink = (*env)->GetPrimitiveArrayCritical(env, arr, 0); }
  release(env, klass, arr) { (*env)->ReleasePrimitiveArrayCritical(env, arr, sink, 0); }

We model pointers as natural numbers with `0` playing the null pointer,
the runtime as a structure holding a flat byte memory, the base address
and length of each array handle's backing storage, a pin counter per
handle, and a predicate saying whether the runtime can honor a pin of a
given handle.  The two runtime primitives are modelled per the JNI
specification: the pin primitive returns a direct pointer to the backing
storage (the handle's base address) and pins it, or returns null when it
cannot honor the pin; the unpin primitive releases the pin.  The two shim
entry points are translated line by line from the C source; each also
returns the list of runtime-primitive calls it performs, so that theorems
can speak about exactly which arguments reach the pin/unpin primitives.
-/

namespace CriticalGC

/-- Raw memory addresses; `0` is the null pointer. -/
abbrev Ptr := Nat

/-- The null pointer. -/
def nullPtr : Ptr := 0

/-- Model of the host runtime (the JNI environment) as far as the shim
touches it: a flat byte memory, for each array handle the base address and
length of its backing storage, whether the runtime can honor a pin of the
handle (`pinOk` is false for invalid handles and when no backing storage
is available), and a pin counter per handle. -/
structure JVM where
  mem : Nat → Nat
  base : Nat → Ptr
  len : Nat → Nat
  pinOk : Nat → Bool
  pinCount : Nat → Nat

/-- The observable contents of an array handle's backing storage: the
bytes of the flat memory from its base address, for its length. -/
def arrayContents (j : JVM) (h : Nat) : List Nat :=
  (List.range (j.len h)).map fun i => j.mem (j.base h + i)

/-- Model of the runtime primitive `GetPrimitiveArrayCritical`: when the
runtime can honor the pin it increments the handle's pin counter and
returns a direct pointer to the backing storage (its base address);
otherwise it leaves the runtime unchanged and returns the null pointer,
the runtime's convention for signalling failure. -/
def getPrimitiveArrayCritical (j : JVM) (arr : Nat) : JVM × Ptr :=
  if j.pinOk arr then
    ({ j with pinCount := fun a => if a = arr then j.pinCount a + 1 else j.pinCount a },
     j.base arr)
  else
    (j, nullPtr)

/-- Model of the runtime primitive `ReleasePrimitiveArrayCritical`: it
unpins the given handle (decrements its pin counter); memory is untouched
because the pinned pointer is a direct alias of the backing storage
(mode 0, no copy). -/
def releasePrimitiveArrayCritical (j : JVM) (arr : Nat) (carray : Ptr) (mode : Nat) : JVM :=
  { j with pinCount := fun a => if a = arr then j.pinCount a - 1 else j.pinCount a }

/-- The shim's entire process-wide state: the single static slot
`static jbyte* sink;`. -/
structure ShimState where
  sink : Ptr
deriving DecidableEq

/-- The shim's state before any call: C static storage is
zero-initialized, so the slot holds the null pointer. -/
def initShim : ShimState := ⟨nullPtr⟩

/-- A call made by the shim to one of the runtime's pin/unpin primitives,
with the exact arguments the C code passes (the `isCopy` out-parameter and
the release `mode`, both `0` in the source). -/
inductive PrimCall where
  | pin (arr : Nat) (isCopy : Ptr)
  | unpin (arr : Nat) (carray : Ptr) (mode : Nat)
deriving DecidableEq

/-- `Java_com_amazon_corretto_benchmark_hyperalloc_CriticalGC_acquire`:
`sink = (*env)->GetPrimitiveArrayCritical(env, arr, 0);`.  The C function
returns void; here it maps the runtime state and the shim state to their
successors and records the single primitive call it makes.  Whatever the
primitive returns, null included, is stored in the slot. -/
def acquire (j : JVM) (klass : Nat) (arr : Nat) (s : ShimState) :
    (JVM × ShimState) × List PrimCall :=
  let r := getPrimitiveArrayCritical j arr
  ((r.1, ⟨r.2⟩), [PrimCall.pin arr 0])

/-- `Java_com_amazon_corretto_benchmark_hyperalloc_CriticalGC_release`:
`(*env)->ReleasePrimitiveArrayCritical(env, arr, sink, 0);`.  The stored
slot value is passed to the unpin primitive; the slot itself is not
modified by the C code. -/
def release (j : JVM) (klass : Nat) (arr : Nat) (s : ShimState) :
    (JVM × ShimState) × List PrimCall :=
  ((releasePrimitiveArrayCritical j arr s.sink 0, s), [PrimCall.unpin arr s.sink 0])

/-- The spec's `Unpinned` state of the state machine: no array handle is
currently pinned in the runtime. -/
def Unpinned (j : JVM) : Prop := ∀ a, j.pinCount a = 0

/-- A pointer value is a valid pinned pointer when it is non-null and is
the base address of some currently pinned handle's backing storage. -/
def ValidPinnedPtr (j : JVM) (p : Ptr) : Prop :=
  p ≠ nullPtr ∧ ∃ a, 0 < j.pinCount a ∧ j.base a = p

/-- A native store of one byte through a raw pointer, as the pinned
pointer's holder would perform it: the flat memory is updated at the given
address. -/
def writeByte (j : JVM) (p : Ptr) (v : Nat) : JVM :=
  { j with mem := fun a => if a = p then v else j.mem a }

/-- A concrete runtime for witnesses: every handle is pinnable, nothing is
pinned, handle `h` has a 16-byte backing store at address `100 + 16 * h`,
and memory is filled with the byte `7`. -/
def jvm0 : JVM :=
  { mem := fun _ => 7
    base := fun h => 100 + 16 * h
    len := fun _ => 16
    pinOk := fun _ => true
    pinCount := fun _ => 0 }

/-- A concrete runtime on which every pin fails (invalid handles / no
backing storage available). -/
def jvmFail : JVM :=
  { jvm0 with pinOk := fun _ => false }

/-- A concrete runtime in which handle `0` is already pinned once. -/
def jvmPinned : JVM :=
  { jvm0 with pinCount := fun a => if a = 0 then 1 else 0 }

/-- The known 16-byte pattern of the spec's concrete scenario:
bytes 1, 2, ..., 16. -/
def pattern16 : List Nat := (List.range 16).map (· + 1)

/-- A concrete runtime for the spec's concrete scenario: handle `0` wraps
a 16-byte buffer at address 1000 filled with `pattern16`. -/
def jvmH : JVM :=
  { mem := fun a => if 1000 ≤ a ∧ a ≤ 1015 then a - 999 else 0
    base := fun _ => 1000
    len := fun _ => 16
    pinOk := fun _ => true
    pinCount := fun _ => 0 }

end CriticalGC

namespace CriticalGC

/-- C1: for a valid (pinnable) handle `h`, `acquire h` immediately
followed by `release h` restores every pin counter to its initial value —
in particular it returns an initially Unpinned runtime to the Unpinned
state — and the backing storage of every handle is unchanged (no
observable storage corruption). -/
theorem acquire_then_release_unpins (j : JVM) (k k' h : Nat) (s : ShimState)
    (hv : j.pinOk h = true) :
    (∀ a, ((release (acquire j k h s).1.1 k' h (acquire j k h s).1.2).1.1).pinCount a
        = j.pinCount a) ∧
    ((release (acquire j k h s).1.1 k' h (acquire j k h s).1.2).1.1).mem = j.mem ∧
    (∀ a, arrayContents (release (acquire j k h s).1.1 k' h (acquire j k h s).1.2).1.1 a
        = arrayContents j a) ∧
    (Unpinned j →
      Unpinned (release (acquire j k h s).1.1 k' h (acquire j k h s).1.2).1.1) := by
  refine ⟨?_, ?_, ?_, ?_⟩
  · intro a
    simp only [acquire, release, getPrimitiveArrayCritical, releasePrimitiveArrayCritical, hv,
      if_pos]
    by_cases hah : a = h <;> simp [hah]
  · simp [acquire, release, getPrimitiveArrayCritical, releasePrimitiveArrayCritical, hv]
  · intro a
    simp [acquire, release, getPrimitiveArrayCritical, releasePrimitiveArrayCritical,
      arrayContents, hv]
  · intro hU a
    simp only [acquire, release, getPrimitiveArrayCritical, releasePrimitiveArrayCritical, hv,
      if_pos]
    by_cases hah : a = h <;> simp [hah, hU a, hU h]

/-- Witness for C1 at the concrete runtime `jvm0`, handle `0`, from the
initial shim state. -/
theorem acquire_then_release_unpins_witness :
    jvm0.pinOk 0 = true ∧
    ((∀ a, ((release (acquire jvm0 1 0 initShim).1.1 2 0
              (acquire jvm0 1 0 initShim).1.2).1.1).pinCount a = jvm0.pinCount a) ∧
     ((release (acquire jvm0 1 0 initShim).1.1 2 0
        (acquire jvm0 1 0 initShim).1.2).1.1).mem = jvm0.mem ∧
     (∀ a, arrayContents (release (acquire jvm0 1 0 initShim).1.1 2 0
              (acquire jvm0 1 0 initShim).1.2).1.1 a = arrayContents jvm0 a) ∧
     (Unpinned jvm0 →
        Unpinned (release (acquire jvm0 1 0 initShim).1.1 2 0
          (acquire jvm0 1 0 initShim).1.2).1.1)) :=
  ⟨rfl, acquire_then_release_unpins jvm0 1 2 0 initShim rfl⟩

/-- C2: the pointer that `release` passes to the runtime's unpin primitive
is exactly the value the preceding `acquire` stored in the process-wide
slot, which is exactly what the pin primitive returned. -/
theorem release_passes_stored_pointer (j : JVM) (k k' arr arr' : Nat) (s : ShimState) :
    ((acquire j k arr s).1.2).sink = (getPrimitiveArrayCritical j arr).2 ∧
    (release (acquire j k arr s).1.1 k' arr' (acquire j k arr s).1.2).2
      = [PrimCall.unpin arr' (getPrimitiveArrayCritical j arr).2 0] := by
  constructor
  · rfl
  · rfl

/-- C3 counterexample: calling `release` from the initial shim state (no
`acquire` ever happened) does proceed with an unpin operation — a call to
the unpin primitive is emitted, carrying the null pointer from the
zero-initialized slot — so the shim does not treat this as a detectable
`UnbalancedRelease` error. -/
theorem release_before_acquire_cex :
    (release jvm0 0 5 initShim).2 = [PrimCall.unpin 5 nullPtr 0] ∧
    (release jvm0 0 5 initShim).2 ≠ [] := by
  constructor
  · rfl
  · intro hcontra
    simp [release] at hcontra

/-- C3 amended: `release` called before any `acquire` proceeds to invoke
the runtime's unpin primitive, passing the null pointer held by the
zero-initialized slot, and leaves the slot unchanged; no error is
detected by the shim. -/
theorem release_before_acquire_unpins_null (j : JVM) (k arr : Nat) :
    (release j k arr initShim).2 = [PrimCall.unpin arr nullPtr 0] ∧
    (release j k arr initShim).1.2 = initShim := by
  exact ⟨rfl, rfl⟩

/-- C4: for a pinnable handle, `acquire` obtains the direct pointer to the
handle's backing storage (its base address) and writes it into the single
slot; the resulting shim state is the old one changed only at the slot,
and the only runtime-primitive call made is the single pin call (the C
function is void and returns nothing). -/
theorem acquire_stores_direct_pointer (j : JVM) (k arr : Nat) (s : ShimState)
    (hv : j.pinOk arr = true) :
    (acquire j k arr s).1.2 = { s with sink := j.base arr } ∧
    (acquire j k arr s).2 = [PrimCall.pin arr 0] := by
  constructor
  · simp [acquire, getPrimitiveArrayCritical, hv]
  · rfl

/-- Witness for C4 at the concrete runtime `jvm0`, handle `3`. -/
theorem acquire_stores_direct_pointer_witness :
    jvm0.pinOk 3 = true ∧
    ((acquire jvm0 0 3 initShim).1.2 = { initShim with sink := jvm0.base 3 } ∧
     (acquire jvm0 0 3 initShim).2 = [PrimCall.pin 3 0]) :=
  ⟨rfl, acquire_stores_direct_pointer jvm0 0 3 initShim rfl⟩

/-- C5 counterexample: on the runtime `jvmFail`, where the pin cannot be
honored, the pin primitive returns null and `acquire` silently stores that
null in the slot as the pinned pointer, overwriting the previous slot
value `42`; nothing is signaled to the shim's caller (the entry point is
void), contradicting the claim that the null is signaled to the caller
rather than stored. -/
theorem acquire_pin_failure_cex :
    (acquire jvmFail 0 3 ⟨42⟩).1.2 = ⟨nullPtr⟩ ∧
    (acquire jvmFail 0 3 ⟨42⟩).1.2.sink = nullPtr := by
  constructor
  · rfl
  · rfl

/-- C5 amended: when the runtime cannot honor the pin, the pin primitive
signals this by returning the null pointer, and `acquire` silently stores
that null pointer in the process-wide slot as the pinned pointer, leaving
the runtime unchanged; the shim itself reports nothing to its caller. -/
theorem acquire_pin_failure_stores_null (j : JVM) (k arr : Nat) (s : ShimState)
    (hv : j.pinOk arr = false) :
    (acquire j k arr s).1.2 = ⟨nullPtr⟩ ∧
    (acquire j k arr s).1.1 = j := by
  constructor
  · simp [acquire, getPrimitiveArrayCritical, hv]
  · simp [acquire, getPrimitiveArrayCritical, hv]

/-- Witness for the amended C5 at the concrete runtime `jvmFail`. -/
theorem acquire_pin_failure_stores_null_witness :
    jvmFail.pinOk 1 = false ∧
    ((acquire jvmFail 0 1 ⟨5⟩).1.2 = ⟨nullPtr⟩ ∧
     (acquire jvmFail 0 1 ⟨5⟩).1.1 = jvmFail) :=
  ⟨rfl, acquire_pin_failure_stores_null jvmFail 0 1 ⟨5⟩ rfl⟩

/-- C6: calling `acquire` while some handle `arr1` is already pinned
overwrites the single slot with the new direct pointer, while the prior
pin remains held in the runtime (its pin counter stays positive) and
`acquire` emits no unpin call — the prior pin is orphaned, never released
through the slot. -/
theorem double_acquire_orphans_prior_pin (j : JVM) (k arr1 arr2 : Nat) (s : ShimState)
    (h1 : 0 < j.pinCount arr1) (hv : j.pinOk arr2 = true) :
    ((acquire j k arr2 s).1.2).sink = j.base arr2 ∧
    0 < ((acquire j k arr2 s).1.1).pinCount arr1 ∧
    (acquire j k arr2 s).2 = [PrimCall.pin arr2 0] := by
  refine ⟨?_, ?_, rfl⟩
  · simp [acquire, getPrimitiveArrayCritical, hv]
  · simp only [acquire, getPrimitiveArrayCritical, hv, if_pos]
    by_cases h12 : arr1 = arr2 <;> simp [h12, h1]

/-- Witness for C6 at the concrete runtime `jvmPinned`, where handle `0`
is already pinned and `acquire` is called on handle `1`. -/
theorem double_acquire_orphans_prior_pin_witness :
    0 < jvmPinned.pinCount 0 ∧ jvmPinned.pinOk 1 = true ∧
    (((acquire jvmPinned 0 1 ⟨jvmPinned.base 0⟩).1.2).sink = jvmPinned.base 1 ∧
     0 < ((acquire jvmPinned 0 1 ⟨jvmPinned.base 0⟩).1.1).pinCount 0 ∧
     (acquire jvmPinned 0 1 ⟨jvmPinned.base 0⟩).2 = [PrimCall.pin 1 0]) :=
  ⟨by decide, rfl,
    double_acquire_orphans_prior_pin jvmPinned 0 0 1 ⟨jvmPinned.base 0⟩ (by decide) rfl⟩

/-- C7, the spec's concrete scenario on the runtime `jvmH`, whose handle
`0` wraps a 16-byte buffer filled with `pattern16`: after `acquire`, the
16 bytes at the stored pointer equal the pattern; writing byte `99` at
offset 0 through the stored pointer and then calling `release` leave the
array handle's contents reflecting the write (the pinned pointer aliases
the backing storage, and nothing in `release` undoes the write). -/
theorem critical_write_scenario :
    (List.range 16).map
        (fun i => ((acquire jvmH 0 0 initShim).1.1).mem
          (((acquire jvmH 0 0 initShim).1.2).sink + i)) = pattern16 ∧
    arrayContents
        (release
          (writeByte (acquire jvmH 0 0 initShim).1.1
            ((acquire jvmH 0 0 initShim).1.2).sink 99)
          0 0 (acquire jvmH 0 0 initShim).1.2).1.1 0
      = 99 :: pattern16.tail := by
  constructor
  · decide
  · decide

/-- C8: starting from an Unpinned runtime, after `acquire h` sets the slot
and `release h` consumes it, the pointer remaining in the slot is no
longer a valid pinned pointer: no handle's storage is pinned any more, so
the slot's value is invalidated even though its bits are not cleared. -/
theorem release_invalidates_slot (j : JVM) (k k' h : Nat) (s : ShimState)
    (hU : Unpinned j) (hv : j.pinOk h = true) :
    ¬ ValidPinnedPtr (release (acquire j k h s).1.1 k' h (acquire j k h s).1.2).1.1
        ((release (acquire j k h s).1.1 k' h (acquire j k h s).1.2).1.2).sink := by
  rintro ⟨-, a, ha, -⟩
  simp only [acquire, release, getPrimitiveArrayCritical, releasePrimitiveArrayCritical, hv,
    if_pos] at ha
  by_cases hah : a = h <;> simp [hah, hU a, hU h] at ha

/-- Witness for C8 at the concrete runtime `jvm0`, handle `0`. -/
theorem release_invalidates_slot_witness :
    Unpinned jvm0 ∧ jvm0.pinOk 0 = true ∧
    ¬ ValidPinnedPtr (release (acquire jvm0 1 0 initShim).1.1 2 0
        (acquire jvm0 1 0 initShim).1.2).1.1
        ((release (acquire jvm0 1 0 initShim).1.1 2 0
          (acquire jvm0 1 0 initShim).1.2).1.2).sink :=
  ⟨fun _ => rfl, rfl,
    release_invalidates_slot jvm0 1 2 0 initShim (fun _ => rfl) rfl⟩

/-- C9: the class token parameter is ignored by both entry points — two
calls differing only in `klass` produce the same runtime state, the same
shim state, and the very same list of calls to the pin/unpin primitives. -/
theorem klass_ignored (j : JVM) (k1 k2 arr : Nat) (s : ShimState) :
    acquire j k1 arr s = acquire j k2 arr s ∧
    release j k1 arr s = release j k2 arr s :=
  ⟨rfl, rfl⟩

/-- C10: the process-wide slot is statically zero-initialized, so before
the first `acquire` the shim's state holds the null pointer, and in any
Unpinned runtime that null is not a valid pinned pointer — the initial
state of the shim is Unpinned with a null stored pointer. -/
theorem initial_slot_is_null (j : JVM) (hU : Unpinned j) :
    initShim.sink = nullPtr ∧ Unpinned j ∧ ¬ ValidPinnedPtr j initShim.sink :=
  ⟨rfl, hU, fun hvp => hvp.1 rfl⟩

/-- Witness for C10 at the concrete runtime `jvm0`. -/
theorem initial_slot_is_null_witness :
    Unpinned jvm0 ∧
    (initShim.sink = nullPtr ∧ Unpinned jvm0 ∧ ¬ ValidPinnedPtr jvm0 initShim.sink) :=
  ⟨fun _ => rfl, initial_slot_is_null jvm0 (fun _ => rfl)⟩

end CriticalGC
